import Mathlib

/-!
Verification of the probing-campaign bot in
`src/telegram_url_tester_enhanced.py` against its natural-language
specification.  Each Python function the claims touch is shallowly
embedded as a computable Lean definition, translated line by line from
the source: `check_url` (lines 74-105), `save_test_state`/
`load_test_state` (lines 36-64), the `/test` command handler
(lines 206-223), the batch loop `run_test` (lines 226-306), the
scheduled variant `run_scheduled_test` (lines 393-428), and the
`/scheduletest` handler `schedule_test` (lines 350-390).  Strings are
modelled as lists of characters, Python dictionaries as association
lists, the network as an explicit trace of per-attempt results, and the
single state file `test_state.json` as an explicit file-state value.
-/

set_option maxRecDepth 40000

namespace Kuma

/-! ## Character-list helpers (Python `str` operations) -/

/-- Python `needle in haystack` starts by testing whether `needle` is an
initial segment; this is the initial-segment test on character lists. -/
def startsWith : List Char → List Char → Bool
  | [], _ => true
  | _ :: _, [] => false
  | a :: as, b :: bs => a == b && startsWith as bs

/-- Python substring containment `needle in haystack` (case-sensitive,
exact codepoints), as used at line 85, 82 and 89 of the source. -/
def containsSub (needle : List Char) : List Char → Bool
  | [] => startsWith needle []
  | c :: t => startsWith needle (c :: t) || containsSub needle t

/-- Python `str.lower()` restricted to the ASCII range, which covers
every header value and marker string the program compares. -/
def lowerClist (s : List Char) : List Char := s.map Char.toLower

/-- The U+2019 right single quotation mark appearing twice inside the
first not-found marker at line 90 of the source. -/
def rsquo : Char := Char.ofNat 8217

/-- Marker `The page you’re looking for couldn’t be found.` from line 90,
with its two typographic apostrophes. -/
def phraseCouldntBeFound : List Char :=
  ("The page you").data ++ [rsquo] ++ ("re looking for couldn").data
    ++ [rsquo] ++ ("t be found.").data

/-- The three not-found markers of lines 89-93, in source order. -/
def notFoundPhrases : List (List Char) :=
  [phraseCouldntBeFound, ("Not Found").data, ("404error").data]

/-! ## ProbeClient: `check_url` (source lines 74-105) -/

/-- One HTTP response as the probe inspects it: the integer status, the
raw `Content-Type` header value (`''` when the header is absent, per
`headers.get('Content-Type', '')` at line 80), and the decoded body. -/
structure HttpResponse where
  status : Nat
  content_type : List Char
  body : List Char
  deriving DecidableEq

/-- Validity evaluation of a single received response, lines 79-98:
non-200 is invalid; in image mode valid iff the lowercased content type
contains `image/jpeg`; otherwise a content type containing `image` is
valid without reading the body, and a textual body is valid iff no
not-found marker occurs in it (raw, case-sensitive `in`). -/
def checkResponse (check_image : Bool) (r : HttpResponse) : Bool :=
  if r.status = 200 then
    if check_image then containsSub (("image/jpeg").data) (lowerClist r.content_type)
    else if containsSub (("image").data) (lowerClist r.content_type) = true then true
    else if notFoundPhrases.any (fun p => containsSub p r.body) = true then false
    else true
  else false

/-- The retry loop of lines 76-105.  `trace k` is the transport-level
result of attempt `k`: `Except.error` when `session.get`/`text()`
raised (the bare `except Exception` at line 99 catches it, sleeps and
continues), `Except.ok r` when a response was received, in which case
the function returns `checkResponse` of it immediately.  After the loop
exhausts its bound the function returns `false` (line 105). -/
def checkUrlFrom (check_image : Bool)
    (trace : Nat → Except (List Char) HttpResponse) : Nat → Nat → Bool
  | _, 0 => false
  | a, Nat.succ rem =>
    match trace a with
    | Except.ok r => checkResponse check_image r
    | Except.error _ => checkUrlFrom check_image trace (a + 1) rem

/-- `check_url(url, retries=3, timeout=5, check_image=False)` as its
caller observes it.  Every awaited operation of the body sits inside the
`try` of lines 77-98 whose handler catches `Exception`, so the function
can only return a boolean; the `Except` result type records that no
exception escapes to the caller. -/
def check_url (check_image : Bool) (retries : Nat)
    (trace : Nat → Except (List Char) HttpResponse) : Except (List Char) Bool :=
  Except.ok (checkUrlFrom check_image trace 0 retries)

theorem checkUrlFrom_all_error (ci : Bool)
    (trace : Nat → Except (List Char) HttpResponse) :
    ∀ rem a, (∀ k, a ≤ k → k < a + rem → ∃ e, trace k = Except.error e) →
    checkUrlFrom ci trace a rem = false := by
  intro rem
  induction rem with
  | zero => intro a _; rfl
  | succ n ih =>
    intro a hall
    obtain ⟨e, he⟩ := hall a (Nat.le_refl a) (by omega)
    simp only [checkUrlFrom, he]
    exact ih (a + 1) (fun k h1 h2 => hall k (by omega) (by omega))

theorem checkUrlFrom_congr (ci : Bool)
    (t1 t2 : Nat → Except (List Char) HttpResponse) :
    ∀ rem a, (∀ k, a ≤ k → k < a + rem → t1 k = t2 k) →
    checkUrlFrom ci t1 a rem = checkUrlFrom ci t2 a rem := by
  intro rem
  induction rem with
  | zero => intro a _; rfl
  | succ n ih =>
    intro a hall
    have he := hall a (Nat.le_refl a) (by omega)
    simp only [checkUrlFrom, he]
    cases t2 a with
    | ok r => rfl
    | error e => exact ih (a + 1) (fun k h1 h2 => hall k (by omega) (by omega))

/-- Claim C2: for every URL and every pattern of transport-level
failures, `check_url` never raises to its caller: it always returns an
ordinary boolean; if every one of its `retries` attempts raises a
transport error it returns `valid=false`; and it inspects at most the
first `retries` attempts of the transport trace (the fixed retry
bound). -/
theorem check_url_never_raises :
    (∀ (ci : Bool) (retries : Nat)
        (trace : Nat → Except (List Char) HttpResponse),
      ∃ b, check_url ci retries trace = Except.ok b) ∧
    (∀ (ci : Bool) (retries : Nat)
        (trace : Nat → Except (List Char) HttpResponse),
      (∀ k, k < retries → ∃ e, trace k = Except.error e) →
      check_url ci retries trace = Except.ok false) ∧
    (∀ (ci : Bool) (retries : Nat)
        (t1 t2 : Nat → Except (List Char) HttpResponse),
      (∀ k, k < retries → t1 k = t2 k) →
      check_url ci retries t1 = check_url ci retries t2) := by
  refine ⟨fun ci retries trace => ⟨checkUrlFrom ci trace 0 retries, rfl⟩, ?_, ?_⟩
  · intro ci retries trace hall
    show Except.ok (checkUrlFrom ci trace 0 retries) = Except.ok false
    rw [checkUrlFrom_all_error ci trace retries 0 (fun k h1 h2 => hall k (by omega))]
  · intro ci retries t1 t2 hag
    show Except.ok (checkUrlFrom ci t1 0 retries) = Except.ok (checkUrlFrom ci t2 0 retries)
    rw [checkUrlFrom_congr ci t1 t2 retries 0 (fun k h1 h2 => hag k (by omega))]

/-- Witness for C2: with three attempts all raising a timeout, the call
returns `valid=false` normally. -/
theorem check_url_never_raises_w :
    check_url false 3 (fun _ => Except.error (("timeout").data)) = Except.ok false :=
  check_url_never_raises.2.1 false 3 (fun _ => Except.error (("timeout").data))
    (fun _ _ => ⟨("timeout").data, rfl⟩)

/-- Counterexample to claim C3 as stated: the body comparison of
line 89 uses Python `in` on the raw strings, not a case-insensitive
comparison.  The body `not found` contains the marker `Not Found` up to
case, yet the code reports the response as valid. -/
theorem checkResponse_case_sensitive_cex :
    checkResponse false ⟨200, ("text/html").data, ("not found").data⟩ = true ∧
    containsSub (lowerClist (("Not Found").data))
      (lowerClist (("not found").data)) = true := by
  decide

/-- Claim C3, amended: in non-image mode any non-200 response is
invalid, and a 200 response whose lowercased content type does not
contain `image` is valid iff its body, compared case-SENSITIVELY,
contains none of the three configured not-found markers. -/
theorem checkResponse_non_image_characterization :
    (∀ r : HttpResponse, r.status ≠ 200 → checkResponse false r = false) ∧
    (∀ r : HttpResponse, r.status = 200 →
      containsSub (("image").data) (lowerClist r.content_type) = false →
      (checkResponse false r = true ↔
        notFoundPhrases.any (fun p => containsSub p r.body) = false)) := by
  constructor
  · intro r hr
    simp [checkResponse, hr]
  · intro r h200 himg
    cases hany : notFoundPhrases.any (fun p => containsSub p r.body) with
    | false => simp [checkResponse, h200, himg, hany]
    | true => simp [checkResponse, h200, himg, hany]

/-- Witness for C3 (amended): a 404 is invalid; a clean 200 text page is
valid. -/
theorem checkResponse_non_image_characterization_w :
    checkResponse false ⟨404, ("text/html").data, []⟩ = false ∧
    checkResponse false ⟨200, ("text/html").data, ("hello").data⟩ = true :=
  ⟨checkResponse_non_image_characterization.1 ⟨404, ("text/html").data, []⟩ (by decide),
   (checkResponse_non_image_characterization.2 ⟨200, ("text/html").data, ("hello").data⟩
      rfl (by decide)).mpr (by decide)⟩

/-- Claim C9: in non-image mode a 200 response whose lowercased
`Content-Type` contains `image` is reported valid for every body
whatsoever — the marker scan of the body is skipped. -/
theorem image_content_type_skips_body :
    ∀ ct body : List Char,
      containsSub (("image").data) (lowerClist ct) = true →
      checkResponse false ⟨200, ct, body⟩ = true := by
  intro ct body himg
  simp [checkResponse, himg]

/-- Witness for C9: an `image/png` response whose body even contains the
`Not Found` marker is still valid. -/
theorem image_content_type_skips_body_w :
    checkResponse false ⟨200, ("image/png").data, ("Not Found").data⟩ = true :=
  image_content_type_skips_body (("image/png").data) (("Not Found").data) (by decide)

/-! ## Python dictionaries and the persisted state file

`context.user_data` is a JSON-serialisable Python dictionary; it is
modelled as an association list over a small value type covering every
shape the program stores.  The persistence layer of lines 33-64 writes
the single module-level file `test_state.json`; its content is modelled
by `FileState`. -/

/-- JSON-representable values the bot stores in `user_data` and in
`test_state.json`. -/
inductive Val where
  | vBool : Bool → Val
  | vInt : Int → Val
  | vStr : String → Val
  | vStrList : List String → Val
  deriving DecidableEq

/-- A Python dictionary, as an association list without duplicate-key
reasoning beyond first-match lookup. -/
abbrev Dict := List (String × Val)

/-- Python `d.get(k, default)`. -/
def dictGet (d : Dict) (k : String) (default : Val) : Val :=
  (List.lookup k d).getD default

/-- Python `k in d`. -/
def dictHasKey (d : Dict) (k : String) : Bool :=
  (List.lookup k d).isSome

/-- Python `d[k] = v`: replace the first binding of `k`, else append. -/
def dictInsert : Dict → String → Val → Dict
  | [], k, v => [(k, v)]
  | (k2, v2) :: t, k, v =>
    if k2 = k then (k, v) :: t else (k2, v2) :: dictInsert t k v

/-- Python `ud.update(st)`: insert every binding of `st` into `ud` in
order (line 60 of the source). -/
def dictUpdate (ud : Dict) : Dict → Dict
  | [] => ud
  | kv :: rest => dictUpdate (dictInsert ud kv.1 kv.2) rest

/-- The snapshot dictionary literal of lines 37-47: exactly nine keys,
each read from `user_data` with the source's default. -/
def mkSnapshot (ud : Dict) : Dict :=
  [("testing", dictGet ud "testing" (Val.vBool false)),
   ("paused", dictGet ud "paused" (Val.vBool false)),
   ("url", dictGet ud "url" (Val.vStr "")),
   ("attempts", dictGet ud "attempts" (Val.vInt 0)),
   ("initial_number", dictGet ud "initial_number" (Val.vInt 4571609355900)),
   ("current_index", dictGet ud "current_index" (Val.vInt 0)),
   ("valid_urls", dictGet ud "valid_urls" (Val.vStrList [])),
   ("batch_size", dictGet ud "batch_size" (Val.vInt 300)),
   ("batch_number", dictGet ud "batch_number" (Val.vInt 0))]

/-- The nine keys of the persisted snapshot, in the order of
lines 38-46. -/
def snapshotKeys : List String :=
  ["testing", "paused", "url", "attempts", "initial_number",
   "current_index", "valid_urls", "batch_size", "batch_number"]

/-- Content of the module-level file `test_state.json` (line 33):
missing, unreadable or unparseable, or a parsed dictionary. -/
inductive FileState where
  | missing : FileState
  | corrupt : FileState
  | content : Dict → FileState
  deriving DecidableEq

/-- The `aiofiles.open(..., 'w')`/`write` pair of lines 49-50.  `ok`
says whether the write succeeds; a failing write raises, which the
handler of lines 51-52 turns into a log line. -/
def writeStateFile (ok : Bool) (d : Dict) : Except String FileState :=
  if ok then Except.ok (FileState.content d) else Except.error "io error"

/-- `save_test_state(user_data)`, lines 36-52: build the nine-field
snapshot and write it to the one shared file; any exception is caught
and logged, leaving the previous file content in place. -/
def save_test_state (ok : Bool) (fs : FileState) (ud : Dict) : FileState :=
  match writeStateFile ok (mkSnapshot ud) with
  | Except.ok fs2 => fs2
  | Except.error _ => fs

/-- The read-and-parse of lines 57-59, with the two failure shapes the
handlers of lines 61-64 distinguish. -/
def readStateFile : FileState → Except String Dict
  | FileState.missing => Except.error "FileNotFoundError"
  | FileState.corrupt => Except.error "json decode error"
  | FileState.content d => Except.ok d

/-- `load_test_state(user_data)`, lines 55-64: on a successful read and
parse merge the saved keys into `user_data`; on `FileNotFoundError` or
any other exception, log and leave `user_data` untouched. -/
def load_test_state (fs : FileState) (ud : Dict) : Dict :=
  match readStateFile fs with
  | Except.ok st => dictUpdate ud st
  | Except.error _ => ud

theorem lookup_dictInsert_ne (k k2 : String) (v : Val) (hne : k ≠ k2) :
    ∀ d : Dict, List.lookup k (dictInsert d k2 v) = List.lookup k d := by
  have hbeq : (k == k2) = false := beq_eq_false_iff_ne.mpr hne
  intro d
  induction d with
  | nil => simp [dictInsert, List.lookup, hbeq]
  | cons a t ih =>
    obtain ⟨ka, va⟩ := a
    by_cases hka : ka = k2
    · subst hka
      simp [dictInsert, List.lookup, hbeq]
    · simp only [dictInsert, if_neg hka, List.lookup]
      cases hkka : (k == ka) <;> simp [hkka, ih]

theorem lookup_dictUpdate_not_mem :
    ∀ (st ud : Dict) (k : String), (∀ p ∈ st, k ≠ p.1) →
    List.lookup k (dictUpdate ud st) = List.lookup k ud := by
  intro st
  induction st with
  | nil => intro ud k _; rfl
  | cons a t ih =>
    intro ud k hk
    have h1 : k ≠ a.1 := hk a (by simp)
    show List.lookup k (dictUpdate (dictInsert ud a.1 a.2) t) = List.lookup k ud
    rw [ih (dictInsert ud a.1 a.2) k (fun p hp => hk p (by simp [hp]))]
    exact lookup_dictInsert_ne k a.1 a.2 h1 ud

/-- Claim C8: persistence failures never propagate.  A load from a
missing file (`FileNotFoundError`) or a corrupt file (`json.loads`
failure) returns `user_data` unchanged — treated as no prior campaign —
and a failing checkpoint write is swallowed, leaving the previous file
content in place; all three operations return ordinary values. -/
theorem persistence_failures_swallowed :
    (∀ ud : Dict, load_test_state FileState.missing ud = ud) ∧
    (∀ ud : Dict, load_test_state FileState.corrupt ud = ud) ∧
    (∀ (fs : FileState) (ud : Dict), save_test_state false fs ud = fs) := by
  exact ⟨fun _ => rfl, fun _ => rfl, fun _ _ => rfl⟩

/-- Claim C10: `Save` writes exactly the nine snapshot keys, whatever
other keys `user_data` holds, and `Load` of a saved snapshot merges
only those nine keys, leaving every other key of the in-memory state
(e.g. `image_links`, `scheduled_url`, `scheduled_chat_id`) unchanged. -/
theorem snapshot_exact_keys_and_load_frame :
    (∀ ud : Dict, (mkSnapshot ud).map Prod.fst = snapshotKeys) ∧
    (∀ (ud ud2 : Dict) (k : String), k ∉ snapshotKeys →
      List.lookup k (load_test_state (FileState.content (mkSnapshot ud)) ud2) =
        List.lookup k ud2) := by
  constructor
  · intro ud; rfl
  · intro ud ud2 k hk
    show List.lookup k (dictUpdate ud2 (mkSnapshot ud)) = List.lookup k ud2
    apply lookup_dictUpdate_not_mem
    intro p hp hkp
    apply hk
    rw [hkp]
    have hmem : p.1 ∈ (mkSnapshot ud).map Prod.fst := List.mem_map_of_mem Prod.fst hp
    rw [show (mkSnapshot ud).map Prod.fst = snapshotKeys from rfl] at hmem
    exact hmem

/-- Sample in-memory states for the persistence witnesses. -/
def demoUd : Dict := [("testing", Val.vBool true), ("current_index", Val.vInt 5)]

/-- A second session state holding keys outside the snapshot set. -/
def demoUd2 : Dict :=
  [("image_links", Val.vStrList ["https://example.com/1.jpg"]),
   ("current_index", Val.vInt 7)]

/-- Witness for C10: loading a snapshot saved from one state leaves the
`image_links` key of another state untouched. -/
theorem snapshot_exact_keys_and_load_frame_w :
    List.lookup "image_links"
        (load_test_state (FileState.content (mkSnapshot demoUd)) demoUd2) =
      some (Val.vStrList ["https://example.com/1.jpg"]) :=
  (snapshot_exact_keys_and_load_frame.2 demoUd demoUd2 "image_links" (by decide)).trans
    (by decide)

/-! ## The `/test` command handler (source lines 206-223) -/

/-- Replies the `/test` handler can give: the configuration check of
lines 208-210, the already-running rejection of lines 211-213, or the
start confirmation of line 223. -/
inductive TestReply where
  | needConfig : TestReply
  | alreadyRunning : TestReply
  | started : TestReply
  deriving DecidableEq

/-- `test(update, context)`, lines 206-223, acting on `user_data`: if
`url` or `attempts` is missing, reply and return; if
`user_data.get('testing', False)` is truthy, reply and return without
touching the dictionary; otherwise initialise the campaign fields. -/
def truthy : Val → Bool
  | Val.vBool b => b
  | Val.vInt n => n != 0
  | Val.vStr s => !s.isEmpty
  | Val.vStrList l => !l.isEmpty

/-- The `/test` handler's state transition and reply. -/
def testCmd (ud : Dict) : Dict × TestReply :=
  if dictHasKey ud "url" = false ∨ dictHasKey ud "attempts" = false then
    (ud, TestReply.needConfig)
  else if truthy (dictGet ud "testing" (Val.vBool false)) = true then
    (ud, TestReply.alreadyRunning)
  else
    (dictInsert (dictInsert (dictInsert (dictInsert (dictInsert ud
        "testing" (Val.vBool true))
        "paused" (Val.vBool false))
        "valid_urls" (Val.vStrList []))
        "current_index" (Val.vInt 0))
        "batch_number" (Val.vInt 0),
     TestReply.started)

/-- Claim C4: issuing `/test` while a campaign is already running is
rejected and leaves the whole session dictionary — hence cursor, valid
results, batch number and status flags — unchanged; when the
configuration is present the reply is the already-running error. -/
theorem test_while_running_rejected :
    ∀ ud : Dict,
      truthy (dictGet ud "testing" (Val.vBool false)) = true →
      (testCmd ud).1 = ud ∧ (testCmd ud).2 ≠ TestReply.started ∧
      (dictHasKey ud "url" = true → dictHasKey ud "attempts" = true →
        (testCmd ud).2 = TestReply.alreadyRunning) := by
  intro ud ht
  by_cases hc : dictHasKey ud "url" = false ∨ dictHasKey ud "attempts" = false
  · refine ⟨by simp [testCmd, hc], by simp [testCmd, hc], ?_⟩
    intro hu ha
    rcases hc with hc | hc
    · rw [hu] at hc; cases hc
    · rw [ha] at hc; cases hc
  · exact ⟨by simp [testCmd, hc, ht], by simp [testCmd, hc, ht],
      fun _ _ => by simp [testCmd, hc, ht]⟩

/-- A running session with configuration present, for the C4 witness. -/
def demoRunningUd : Dict :=
  [("url", Val.vStr "https://example.test/"), ("attempts", Val.vInt 10),
   ("testing", Val.vBool true), ("current_index", Val.vInt 42),
   ("valid_urls", Val.vStrList []), ("batch_number", Val.vInt 1)]

/-- Witness for C4: on a concrete running session, `/test` changes
nothing and replies with the already-running error. -/
theorem test_while_running_rejected_w :
    (testCmd demoRunningUd).1 = demoRunningUd ∧
    (testCmd demoRunningUd).2 = TestReply.alreadyRunning :=
  ⟨(test_while_running_rejected demoRunningUd (by decide)).1,
   (test_while_running_rejected demoRunningUd (by decide)).2.2 (by decide) (by decide)⟩

/-! ## Session partitioning of the store (claims C6) -/

/-- The whole bot: per-session in-memory dictionaries (the library keys
`context.user_data` by user) and the single shared `test_state.json`. -/
structure BotWorld where
  sessions : String → Dict
  stateFile : FileState

/-- A session invoking `save_test_state(context.user_data)`: note the
file is the module-level `STATE_FILE`, not keyed by the session. -/
def saveFor (k : String) (w : BotWorld) : BotWorld :=
  { w with stateFile := save_test_state true w.stateFile (w.sessions k) }

/-- A session invoking `load_test_state(context.user_data)`. -/
def loadFor (k : String) (w : BotWorld) : BotWorld :=
  { w with sessions := fun j =>
      if j = k then load_test_state w.stateFile (w.sessions k) else w.sessions j }

/-- Two sessions with distinct checkpoints, for the C6 counterexample. -/
def demoWorld : BotWorld :=
  { sessions := fun j =>
      if j = "alice" then [("current_index", Val.vInt 5)]
      else if j = "bob" then [("current_index", Val.vInt 9)]
      else [],
    stateFile := FileState.missing }

/-- Counterexample to claim C6 as stated: after alice checkpoints, a
save by bob replaces alice's persisted checkpoint (the store is one
shared file), and a subsequent load by alice yields bob's
`current_index`, not her own. -/
theorem store_not_partitioned_cex :
    (saveFor "bob" (saveFor "alice" demoWorld)).stateFile ≠
      (saveFor "alice" demoWorld).stateFile ∧
    dictGet ((loadFor "alice" (saveFor "bob" (saveFor "alice" demoWorld))).sessions
        "alice") "current_index" (Val.vInt 0) = Val.vInt 9 := by
  decide

/-- Claim C6, amended: persisted state is NOT partitioned by session:
all sessions share the one file `test_state.json`.  A later save by any
session fully overwrites whatever an earlier save (by any session) left
there, and a load merges the currently stored snapshot into the loading
session's dictionary regardless of which session wrote it.  Only the
in-memory dictionaries are per-session. -/
theorem store_is_global_last_writer_wins :
    (∀ (w : BotWorld) (k1 k2 : String),
      saveFor k2 (saveFor k1 w) = saveFor k2 w) ∧
    (∀ (w : BotWorld) (k j : String),
      (loadFor j (saveFor k w)).sessions j =
        dictUpdate (w.sessions j) (mkSnapshot (w.sessions k))) := by
  constructor
  · intro w k1 k2; rfl
  · intro w k j
    simp [loadFor, saveFor, save_test_state, writeStateFile, load_test_state,
      readStateFile]

/-! ## The batch loop `run_test` (source lines 226-306)

The loop is simulated as a pure state transformer.  Candidate
identifiers stand in for the URLs they are formatted into (the template
substitution of line 253 is a bijection between the two), and the probe
outcomes are a function from candidate id to boolean — `check_url`'s
returned validity.  The simulation covers an uninterrupted run: no
concurrent `/pause` or `/stop` flips `testing`/`paused`, so the break of
line 246 and the polling wait of lines 248-250 never fire, which is the
regime claims C1 and C5 describe. -/

/-- The nine-field snapshot as `run_test`'s saves produce it, restricted
to the fields the loop mutates (`url`, `attempts`, `initial_number` and
`batch_size` are constant for the whole run). -/
structure Snap where
  testing : Bool
  paused : Bool
  current_index : Nat
  valid_urls : List Nat
  batch_number : Nat
  deriving DecidableEq

/-- Mutable session state during the run, plus two observation logs:
the candidate ids probed (in order) and the snapshots passed to
`save_test_state` (in order). -/
structure SimState where
  testing : Bool
  paused : Bool
  current_index : Nat
  valid_urls : List Nat
  batch_number : Nat
  probes : List Nat
  saves : List Snap
  deriving DecidableEq

/-- Record a call to `save_test_state` with the current state. -/
def pushSave (s : SimState) : SimState :=
  { s with saves := s.saves ++
      [⟨s.testing, s.paused, s.current_index, s.valid_urls, s.batch_number⟩] }

/-- The state set up by the `/test` handler before it spawns `run_test`
(lines 215-219): `testing=True`, `paused=False`, `valid_urls=[]`,
`current_index=0`, `batch_number=0`. -/
def startState : SimState :=
  { testing := true, paused := false, current_index := 0, valid_urls := [],
    batch_number := 0, probes := [], saves := [] }

/-- One iteration of the `for i in range(start_index, end_index)` body,
lines 245-265: build the candidate id `initial_number + i` (line 252),
probe it, append to `valid_urls` on success (line 257), advance
`current_index` to `i+1` (line 258), and checkpoint when
`(i+1) % 200 == 0 or i+1 == end_index` (line 261). -/
def stepAttempt (outcome : Nat → Bool) (initial endIdx i : Nat)
    (s : SimState) : SimState :=
  let idNum := initial + i
  let s1 := { s with probes := s.probes ++ [idNum] }
  let s2 := if outcome idNum = true
    then { s1 with valid_urls := s1.valid_urls ++ [idNum] } else s1
  let s3 := { s2 with current_index := i + 1 }
  if (i + 1) % 200 = 0 ∨ i + 1 = endIdx then pushSave s3 else s3

/-- The whole `for` loop over the chunk's index list. -/
def innerLoop (outcome : Nat → Bool) (initial endIdx : Nat) :
    List Nat → SimState → SimState
  | [], s => s
  | i :: rest, s =>
    innerLoop outcome initial endIdx rest (stepAttempt outcome initial endIdx i s)

/-- The `finally` block of lines 300-306: once `current_index` has
reached `total_attempts`, clear `testing`, `cursor` and `batch_number`
and checkpoint the cleared state. -/
def finallyStep (total : Nat) (s : SimState) : SimState :=
  if total ≤ s.current_index then
    pushSave { s with testing := false, current_index := 0, batch_number := 0 }
  else s

/-- `run_test`, lines 226-306, for an uninterrupted run.  The chunk
starts at `batch_number * batch_size` (line 234); if nothing remains the
function replies and returns (lines 236-238, still running the
`finally`); otherwise it processes `min(batch_size, remaining)` attempts
(lines 240-241), and at chunk end either advances `batch_number`,
checkpoints, and re-invokes itself (lines 282-287) or finishes.  The
self-recursion is bounded by explicit fuel; every theorem below supplies
fuel covering the run. -/
def runTestSim (outcome : Nat → Bool) (initial total bsize : Nat) :
    Nat → SimState → SimState
  | 0, s => s
  | Nat.succ fuel, s =>
    if total ≤ s.batch_number * bsize then finallyStep total s
    else
      let endIdx := s.batch_number * bsize + min bsize (total - s.batch_number * bsize)
      let s1 := innerLoop outcome initial endIdx
        (List.range' (s.batch_number * bsize)
          (min bsize (total - s.batch_number * bsize))) s
      let s2 := if endIdx < total then
          runTestSim outcome initial total bsize fuel
            (pushSave { s1 with batch_number := s1.batch_number + 1 })
        else s1
      finallyStep total s2

/-- The loop of `run_scheduled_test`, lines 401-409: a plain
`for i in range(attempts)` probing `initial_number + i` (line 403) and
collecting valid candidates; returns (probed ids, valid ids). -/
def scheduledLoop (outcome : Nat → Bool) (initial : Nat) :
    List Nat → List Nat × List Nat → List Nat × List Nat
  | [], acc => acc
  | i :: rest, (probes, valids) =>
    scheduledLoop outcome initial rest
      (probes ++ [initial + i],
       if outcome (initial + i) = true then valids ++ [initial + i] else valids)

/-- `run_scheduled_test`'s enumeration, lines 393-424. -/
def runScheduledSim (outcome : Nat → Bool) (initial attempts : Nat) :
    List Nat × List Nat :=
  scheduledLoop outcome initial (List.range attempts) ([], [])

theorem stepAttempt_probes (outcome : Nat → Bool) (initial endIdx i : Nat)
    (s : SimState) :
    (stepAttempt outcome initial endIdx i s).probes = s.probes ++ [initial + i] ∧
    (stepAttempt outcome initial endIdx i s).batch_number = s.batch_number := by
  cases ho : outcome (initial + i) <;>
    by_cases hc : ((i + 1) % 200 = 0 ∨ i + 1 = endIdx) <;>
      simp [stepAttempt, pushSave, ho, hc]

theorem innerLoop_probes (outcome : Nat → Bool) (initial endIdx : Nat) :
    ∀ (is : List Nat) (s : SimState),
      (innerLoop outcome initial endIdx is s).probes =
        s.probes ++ is.map (fun i => initial + i) ∧
      (innerLoop outcome initial endIdx is s).batch_number = s.batch_number := by
  intro is
  induction is with
  | nil => intro s; simp [innerLoop]
  | cons i rest ih =>
    intro s
    show (innerLoop outcome initial endIdx rest (stepAttempt outcome initial endIdx i s)).probes = _ ∧ _
    obtain ⟨hp, hb⟩ := stepAttempt_probes outcome initial endIdx i s
    obtain ⟨hp2, hb2⟩ := ih (stepAttempt outcome initial endIdx i s)
    refine ⟨?_, hb2.trans hb⟩
    rw [hp2, hp]
    simp

theorem finallyStep_probes (total : Nat) (s : SimState) :
    (finallyStep total s).probes = s.probes := by
  unfold finallyStep pushSave
  split <;> simp

theorem rangeOneAppend :
    ∀ (m a k : Nat),
      List.range' a m ++ List.range' (a + m) k = List.range' a (m + k) := by
  intro m
  induction m with
  | zero => intro a k; rw [Nat.add_zero, Nat.zero_add]; rfl
  | succ n ih =>
    intro a k
    have h1 : a + (n + 1) = (a + 1) + n := by omega
    have h2 : (n + 1) + k = (n + k) + 1 := by omega
    rw [h1, h2]
    show a :: List.range' (a + 1) n ++ List.range' ((a + 1) + n) k =
      a :: List.range' (a + 1) (n + k)
    rw [List.cons_append, ih (a + 1) k]

theorem runTestSim_probes (outcome : Nat → Bool) (initial bsize : Nat)
    (hb : 0 < bsize) :
    ∀ (fuel total : Nat) (s : SimState),
      total - s.batch_number * bsize ≤ fuel →
      (runTestSim outcome initial total bsize fuel s).probes =
        s.probes ++ (List.range' (s.batch_number * bsize)
          (total - s.batch_number * bsize)).map (fun i => initial + i) := by
  intro fuel
  induction fuel with
  | zero =>
    intro total s hle
    have h0 : total - s.batch_number * bsize = 0 := Nat.le_zero.mp hle
    simp [runTestSim, h0]
  | succ n ih =>
    intro total s hle
    by_cases hstart : total ≤ s.batch_number * bsize
    · have h0 : total - s.batch_number * bsize = 0 := by omega
      simp only [runTestSim]
      rw [if_pos hstart, finallyStep_probes, h0]
      simp
    · have hrem : 0 < total - s.batch_number * bsize := by omega
      simp only [runTestSim]
      rw [if_neg hstart]
      by_cases hmn : bsize ≤ total - s.batch_number * bsize
      · -- full chunk: the batch holds exactly bsize attempts
        have hmin : min bsize (total - s.batch_number * bsize) = bsize :=
          Nat.min_eq_left hmn
        rw [hmin]
        set IL := innerLoop outcome initial (s.batch_number * bsize + bsize)
          (List.range' (s.batch_number * bsize) bsize) s with hILdef
        obtain ⟨hp1, hb1⟩ := innerLoop_probes outcome initial
          (s.batch_number * bsize + bsize)
          (List.range' (s.batch_number * bsize) bsize) s
        rw [← hILdef] at hp1 hb1
        by_cases hE : s.batch_number * bsize + bsize < total
        · rw [if_pos hE, finallyStep_probes]
          have hbn : (pushSave { IL with batch_number := IL.batch_number + 1 }).batch_number =
              s.batch_number + 1 := by
            simp [pushSave, hb1]
          have hpr : (pushSave { IL with batch_number := IL.batch_number + 1 }).probes =
              IL.probes := rfl
          have hmul : (s.batch_number + 1) * bsize = s.batch_number * bsize + bsize :=
            Nat.succ_mul _ _
          have hfuel2 : total -
              (pushSave { IL with batch_number := IL.batch_number + 1 }).batch_number * bsize
                ≤ n := by
            rw [hbn, hmul]; omega
          rw [ih total (pushSave { IL with batch_number := IL.batch_number + 1 }) hfuel2,
            hpr, hbn, hp1, hmul]
          rw [List.append_assoc, ← List.map_append]
          have harith : bsize + (total - (s.batch_number * bsize + bsize)) =
              total - s.batch_number * bsize := by omega
          rw [rangeOneAppend, harith]
        · rw [if_neg hE, finallyStep_probes, hp1]
          have hlen : total - s.batch_number * bsize = bsize := by omega
          rw [hlen]
      · -- final partial chunk: the batch holds the remaining attempts
        have hmin : min bsize (total - s.batch_number * bsize) =
            total - s.batch_number * bsize := Nat.min_eq_right (by omega)
        rw [hmin]
        have hE : ¬ (s.batch_number * bsize + (total - s.batch_number * bsize) < total) := by
          omega
        rw [if_neg hE]
        obtain ⟨hp1, hb1⟩ := innerLoop_probes outcome initial
          (s.batch_number * bsize + (total - s.batch_number * bsize))
          (List.range' (s.batch_number * bsize) (total - s.batch_number * bsize)) s
        rw [finallyStep_probes, hp1]

theorem scheduledLoop_probes (outcome : Nat → Bool) (initial : Nat) :
    ∀ (is : List Nat) (probes valids : List Nat),
      (scheduledLoop outcome initial is (probes, valids)).1 =
        probes ++ is.map (fun i => initial + i) := by
  intro is
  induction is with
  | nil => intro probes valids; simp [scheduledLoop]
  | cons i rest ih =>
    intro probes valids
    show (scheduledLoop outcome initial rest (probes ++ [initial + i], _)).1 = _
    rw [ih]
    simp

/-- Claim C1, amended: there is no adaptive stepping heuristic and no
`consecutiveInvalid` counter anywhere in `run_test` or
`run_scheduled_test`.  Attempt `i` always probes candidate
`initial_number + i` (stride one), completely independent of the probe
outcomes.  In particular, starting at id 100 the ids visited are
100, 101, 102, ... regardless of how many consecutive probes are
invalid. -/
theorem ids_probed_are_consecutive :
    (∀ (outcome : Nat → Bool) (initial total bsize fuel : Nat),
      0 < bsize → total ≤ fuel →
      (runTestSim outcome initial total bsize fuel startState).probes =
        (List.range total).map (fun i => initial + i)) ∧
    (∀ (outcome : Nat → Bool) (initial attempts : Nat),
      (runScheduledSim outcome initial attempts).1 =
        (List.range attempts).map (fun i => initial + i)) := by
  constructor
  · intro outcome initial total bsize fuel hb hfuel
    have h := runTestSim_probes outcome initial bsize hb fuel total startState
      (by simpa [startState] using hfuel)
    rw [h]
    simp [startState, List.range_eq_range']
  · intro outcome initial attempts
    have h := scheduledLoop_probes outcome initial (List.range attempts) [] []
    simpa [runScheduledSim] using h

/-- Witness for C1 (amended): starting at id 100 with six attempts, all
probes invalid, the ids visited are 100..105. -/
theorem ids_probed_are_consecutive_w :
    (runTestSim (fun _ => false) 100 6 300 7 startState).probes =
      [100, 101, 102, 103, 104, 105] :=
  (ids_probed_are_consecutive.1 (fun _ => false) 100 6 300 7 (by decide)
    (by decide)).trans (by decide)

/-- Counterexample to claim C1 as stated: from start id 100 with every
probe invalid, the code visits 100, 101, 102, 103, 104, 105 — not the
100, 107, 114, 121, 128 then 145 the adaptive +7/+17 heuristic
prescribes. -/
theorem ids_probed_cex :
    (runTestSim (fun _ => false) 100 6 300 7 startState).probes =
      [100, 101, 102, 103, 104, 105] ∧
    (runTestSim (fun _ => false) 100 6 300 7 startState).probes ≠
      [100, 107, 114, 121, 128, 145] := by
  decide

/-- Claim C5: with `batch_size=300` and `total_attempts=700`, an
uninterrupted all-invalid run checkpoints, in order: in-loop at attempts
200 and 300 (every-200 rule and chunk end), the batch-boundary save
with `batch_number=1`, in-loop at 400 and 600, the boundary save with
`batch_number=2`, in-loop at 700, and the completion reset.  In
particular a snapshot is persisted after attempts 300, 600 and 700
carrying matching `cursor` and `batch_number` values. -/
theorem run_checkpoint_schedule :
    (runTestSim (fun _ => false) 0 700 300 3 startState).saves =
      [⟨true, false, 200, [], 0⟩, ⟨true, false, 300, [], 0⟩,
       ⟨true, false, 300, [], 1⟩, ⟨true, false, 400, [], 1⟩,
       ⟨true, false, 600, [], 1⟩, ⟨true, false, 600, [], 2⟩,
       ⟨true, false, 700, [], 2⟩, ⟨false, false, 0, [], 0⟩] ∧
    (∀ n ∈ ([300, 600, 700] : List Nat),
      ∃ sn ∈ (runTestSim (fun _ => false) 0 700 300 3 startState).saves,
        sn.current_index = n ∧ sn.batch_number = n / 300) := by
  decide

/-! ## The `/scheduletest` handler (source lines 350-390)

Line 365 calls `datetime.strptime(datetime_str, "%Y-%m-dd %H:%M")`.
In that format string only `%Y`, `%m`, `%H` and `%M` are directives;
the two `d` characters after `%m-` are LITERAL text (the intended
directive would have been `%d`).  Python compiles the format to the
regex  `\d\d\d\d - (1[0-2]|0[1-9]|[1-9]) - d d \s+ (2[0-3]|[0-1]\d|\d)
: ([0-5]\d|\d)`  and requires it to consume the whole input.  The
matcher below transcribes that regex; the alternations return every
possible remainder, giving the same backtracking behaviour. -/

/-- `\d` on a single character. -/
def isDigitCh (c : Char) : Bool := '0' ≤ c && c ≤ '9'

/-- `%Y` compiles to `\d\d\d\d`: exactly four digits. -/
def matchYear : List Char → Option (List Char)
  | a :: b :: c :: d :: rest =>
    if isDigitCh a && isDigitCh b && isDigitCh c && isDigitCh d then some rest else none
  | _ => none

/-- One literal character of the format. -/
def matchLit (c : Char) : List Char → Option (List Char)
  | a :: rest => if a == c then some rest else none
  | [] => none

/-- `%m` compiles to `1[0-2]|0[1-9]|[1-9]`; all matching remainders. -/
def monthRests (s : List Char) : List (List Char) :=
  (match s with
   | a :: b :: rest =>
     (if a = '1' && ('0' ≤ b && b ≤ '2') then [rest] else []) ++
     (if a = '0' && ('1' ≤ b && b ≤ '9') then [rest] else [])
   | _ => []) ++
  (match s with
   | a :: rest => if '1' ≤ a && a ≤ '9' then [rest] else []
   | _ => [])

/-- `%H` compiles to `2[0-3]|[0-1]\d|\d`; all matching remainders. -/
def hourRests (s : List Char) : List (List Char) :=
  (match s with
   | a :: b :: rest =>
     (if a = '2' && ('0' ≤ b && b ≤ '3') then [rest] else []) ++
     (if (a = '0' || a = '1') && isDigitCh b then [rest] else [])
   | _ => []) ++
  (match s with
   | a :: rest => if isDigitCh a then [rest] else []
   | _ => [])

/-- `%M` compiles to `[0-5]\d|\d`; all matching remainders. -/
def minuteRests (s : List Char) : List (List Char) :=
  (match s with
   | a :: b :: rest =>
     if ('0' ≤ a && a ≤ '5') && isDigitCh b then [rest] else []
   | _ => []) ++
  (match s with
   | a :: rest => if isDigitCh a then [rest] else []
   | _ => [])

/-- The `\s+` Python substitutes for the literal space of the format:
one or more whitespace characters (spaces suffice for our inputs). -/
def spacesOnePlus : List Char → Option (List Char)
  | ' ' :: rest =>
    some (rest.dropWhile (fun c => c == ' '))
  | _ => none

/-- Whether `datetime.strptime(s, "%Y-%m-dd %H:%M")` succeeds: the
compiled regex above must consume all of `s`. -/
def strptimeYmddHM (s : List Char) : Bool :=
  match matchYear s with
  | none => false
  | some r1 =>
    match matchLit '-' r1 with
    | none => false
    | some r2 =>
      (monthRests r2).any (fun r3 =>
        match matchLit '-' r3 with
        | none => false
        | some r4 =>
          match matchLit 'd' r4 with
          | none => false
          | some r5 =>
            match matchLit 'd' r5 with
            | none => false
            | some r6 =>
              match spacesOnePlus r6 with
              | none => false
              | some r7 =>
                (hourRests r7).any (fun r8 =>
                  match matchLit ':' r8 with
                  | none => false
                  | some r9 => (minuteRests r9).any (fun r10 => r10.isEmpty)))

/-- The one-shot job slot the handler fills through
`scheduler.add_job(..., id='scheduled_test')` at lines 381-386,
recording the raw trigger arguments. -/
structure SchedJob where
  dateStr : List Char
  timeStr : List Char
  tzStr : List Char
  deriving DecidableEq

/-- Replies of `schedule_test`: missing configuration (lines 352-354),
usage error on fewer than three arguments (lines 355-360), the
invalid date, time or timezone rejection of lines 368-373, or the
confirmation of lines 387-390. -/
inductive SchedReply where
  | needConfig : SchedReply
  | usage : SchedReply
  | invalid : SchedReply
  | scheduled : SchedReply
  deriving DecidableEq

/-- `schedule_test(update, context)`, lines 350-390.  `tzKnown` models
`pytz.timezone` (true iff the name is recognised); the `try` of
lines 363-367 runs `strptime` then the timezone lookup, and either
failure lands in the shared handler that replies and returns with no
job created and no state mutated. -/
def schedule_test (tzKnown : List Char → Bool) (hasUrlAttempts : Bool)
    (args : List (List Char)) (job : Option SchedJob) : Option SchedJob × SchedReply :=
  if hasUrlAttempts = false then (job, SchedReply.needConfig)
  else
    match args with
    | dateS :: timeS :: tzS :: _ =>
      if strptimeYmddHM (dateS ++ [' '] ++ timeS) && tzKnown tzS then
        (some ⟨dateS, timeS, tzS⟩, SchedReply.scheduled)
      else (job, SchedReply.invalid)
    | _ => (job, SchedReply.usage)

/-- Claim C7, code bug: the format string of line 365 is
`"%Y-%m-dd %H:%M"`, so the day-of-month position demands the literal
text `dd`.  The bot's own help text and command menu document
`/scheduletest 2025-05-10 14:30 GMT`, yet that very input fails to
parse: for every timezone model and every prior job slot the handler
replies with the invalid-input message and creates no job.  (Only a
freak input writing `dd` for the day, such as `2025-05-dd 14:30`,
would ever schedule.) -/
theorem schedule_documented_format_always_rejected :
    strptimeYmddHM (("2025-05-10 14:30").data) = false ∧
    (∀ (tzKnown : List Char → Bool) (job : Option SchedJob),
      schedule_test tzKnown true
        [("2025-05-10").data, ("14:30").data, ("GMT").data] job =
        (job, SchedReply.invalid)) ∧
    (∀ job : Option SchedJob,
      schedule_test (fun _ => true) true
        [("2025-05-dd").data, ("14:30").data, ("GMT").data] job =
        (some ⟨("2025-05-dd").data, ("14:30").data, ("GMT").data⟩,
         SchedReply.scheduled)) := by
  refine ⟨by decide, ?_, fun job => rfl⟩
  intro tzKnown job
  have hp : strptimeYmddHM (("2025-05-10").data ++ [' '] ++ ("14:30").data) = false := by
    decide
  have hcond : ¬ ((strptimeYmddHM (("2025-05-10").data ++ [' '] ++ ("14:30").data) &&
      tzKnown (("GMT").data)) = true) := by
    rw [hp]; simp
  show (if (strptimeYmddHM (("2025-05-10").data ++ [' '] ++ ("14:30").data) &&
        tzKnown (("GMT").data)) = true
      then (some ⟨("2025-05-10").data, ("14:30").data, ("GMT").data⟩, SchedReply.scheduled)
      else (job, SchedReply.invalid)) = (job, SchedReply.invalid)
  rw [if_neg hcond]

end Kuma
